import Mathlib

/-!
Verification of the vizitka indexing/caching pipeline against its
natural-language specification.  The definitions below are a shallow
embedding of `vis/models/indexed_piece.py` (the IndexedPiece
cache/orchestrator), `workflow.py` (the WorkflowManager), and the parts of
the indexer layer that the claims exercise.  Indexer implementations whose
source files are absent (noterest.py, interval.py, active_voices.py, the
experimenter classes) are represented symbolically as uninterpreted
derivation nodes, except for the interval computation and reduction, which
are modelled from the spec where noted.
-/

namespace Viz

/-- The value stored under the 'simple or compound' key of an interval
settings dict. -/
inductive SC where
  | simple
  | compound
deriving DecidableEq, Repr

/-- The value stored under the 'quality' key of an interval settings dict:
a Python bool or the string 'diatonic with quality' (the two values accepted
by the max-detail check in `_get_vertical_interval`). -/
inductive QVal where
  | qb (b : Bool)
  | dq
deriving DecidableEq, Repr

/-- A Python settings dict as inspected by indexed_piece.py.  The source only
ever reads the keys 'directed', 'quality', 'simple or compound' and
'horiz_attach_later'; `none` models absence of the key. -/
structure SettingsDict where
  directed : Option Bool := none
  quality : Option QVal := none
  simpleOrCompound : Option SC := none
  horizAttachLater : Option Bool := none
deriving DecidableEq, Repr

/-- `_default_interval_setts` from indexed_piece.py:
quality True, directed True, 'simple or compound' compound,
horiz_attach_later True. -/
def defaultIntervalSetts : SettingsDict :=
  { directed := some true, quality := some (QVal.qb true),
    simpleOrCompound := some SC.compound, horizAttachLater := some true }

/-- The `h_setts` dict built inside `_get_dissonance`:
quality False, 'simple or compound' compound, horiz_attach_later False
(no 'directed' key). -/
def dissHSetts : SettingsDict :=
  { quality := some (QVal.qb false), simpleOrCompound := some SC.compound,
    horizAttachLater := some false }

/-- The `v_setts` dict built inside `_get_dissonance`:
quality True, 'simple or compound' simple, directed True. -/
def dissVSetts : SettingsDict :=
  { directed := some true, quality := some (QVal.qb true),
    simpleOrCompound := some SC.simple }

/-- A derived value (a pandas DataFrame/Series or similar) flowing through
the IndexedPiece cache.  Indexer outputs are uninterpreted nodes tagged with
the indexer's class name and carrying the evaluated constructor arguments,
so equal nodes correspond exactly to running the same analyzer on the same
inputs.  `parts` is the list `self._score.parts` of a given score. -/
inductive Obj where
  | pynone
  | sett (s : SettingsDict)
  | parts (scoreId : Nat)
  | node (tag : String) (args : List Obj)

/-- A Python object appearing in the `settings` slot: either a settings dict
or some other object (such as a DataFrame that was bound to the settings
parameter positionally). -/
inductive PyObj where
  | dict (s : SettingsDict)
  | val (v : Obj)

/-- Erase the dict/other distinction, giving the raw object. -/
def pyEnc : PyObj → Obj
  | PyObj.dict s => Obj.sett s
  | PyObj.val v => v

/-- Encode an optional settings argument the way it reaches a constructor
call: absent means Python None. -/
def pyEncOpt : Option PyObj → Obj
  | none => Obj.pynone
  | some p => pyEnc p

/-- The membership-and-value test from `_get_vertical_interval` /
`_get_horizontal_interval`:
'directed' in settings and settings['directed'] == True and
'quality' in settings and settings['quality'] in (True, 'diatonic with
quality') and 'simple or compound' in settings and
settings['simple or compound'] == 'compound'.
On a non-dict object (e.g. a DataFrame) the key-membership tests are false. -/
def maxDetailPy : PyObj → Bool
  | PyObj.dict s =>
      (s.directed == some true) &&
      (s.quality == some (QVal.qb true) || s.quality == some QVal.dq) &&
      (s.simpleOrCompound == some SC.compound)
  | PyObj.val _ => false

/-- The test `'horiz_attach_later' not in settings or not
settings['horiz_attach_later']` from `_get_horizontal_interval`.  On a
non-dict object key membership is false, so the test is true. -/
def halAbsentOrFalsy : PyObj → Bool
  | PyObj.dict s =>
      match s.horizAttachLater with
      | none => true
      | some b => !b
  | PyObj.val _ => true

/-- The state of one IndexedPiece: the score handle, the `self._analyses`
cache (a dict from analysis name to stored object), and a log of every
Indexer/Experimenter `.run()` execution (the call-count probe of the spec's
testable property: one entry per indexer run, newest first). -/
structure IPState where
  scoreId : Nat
  analyses : List (String × Obj)
  runLog : List String

/-- A fresh, just-imported piece with an empty cache. -/
def pieceZero : IPState := { scoreId := 0, analyses := [], runLog := [] }

/-- Record one execution of the named indexer. -/
def logRun (tag : String) (st : IPState) : IPState :=
  { st with runLog := tag :: st.runLog }

/-- `self._analyses[key] = v`. -/
def cacheIns (key : String) (v : Obj) (st : IPState) : IPState :=
  { st with analyses := (key, v) :: st.analyses }

/-- `_get_part_streams`: cache `self._score.parts` under 'part_streams'. -/
def getPartStreams (st : IPState) : Obj × IPState :=
  match st.analyses.lookup "part_streams" with
  | some v => (v, st)
  | none =>
      let v := Obj.parts st.scoreId
      (v, cacheIns "part_streams" v st)

/-- `_get_m21_objs`: per-part series of all music21 objects, cached under
'm21_objs'.  Building the series is not an indexer run. -/
def getM21Objs (st : IPState) : Obj × IPState :=
  match st.analyses.lookup "m21_objs" with
  | some v => (v, st)
  | none =>
      let q := getPartStreams st
      let v := Obj.node "m21_objs" [q.1]
      (v, cacheIns "m21_objs" v q.2)

/-- `_get_m21_nrc_objs`: filter to Note/Rest/Chord objects and combine
embedded voices, cached under 'm21_nrc_objs'. -/
def getM21NrcObjs (st : IPState) : Obj × IPState :=
  match st.analyses.lookup "m21_nrc_objs" with
  | some v => (v, st)
  | none =>
      let q := getM21Objs st
      let v := Obj.node "m21_nrc_objs" [q.1]
      (v, cacheIns "m21_nrc_objs" v q.2)

/-- `_get_m21_nrc_objs_no_tied`: drop events with non-start ties, cached
under 'm21_nrc_objs_no_tied'. -/
def getM21NrcObjsNoTied (st : IPState) : Obj × IPState :=
  match st.analyses.lookup "m21_nrc_objs_no_tied" with
  | some v => (v, st)
  | none =>
      let q := getM21NrcObjs st
      let v := Obj.node "m21_nrc_objs_no_tied" [q.1]
      (v, cacheIns "m21_nrc_objs_no_tied" v q.2)

/-- `_get_noterest`: run the NoteRestIndexer once and cache under
'noterest'. -/
def getNoterest (st : IPState) : Obj × IPState :=
  match st.analyses.lookup "noterest" with
  | some v => (v, st)
  | none =>
      let q := getM21NrcObjsNoTied st
      let v := Obj.node "NoteRestIndexer" [q.1]
      (v, cacheIns "noterest" v (logRun "NoteRestIndexer" q.2))

/-- `_get_multistop`: run the MultiStopIndexer once and cache under
'multistop'. -/
def getMultistop (st : IPState) : Obj × IPState :=
  match st.analyses.lookup "multistop" with
  | some v => (v, st)
  | none =>
      let q := getM21NrcObjsNoTied st
      let v := Obj.node "MultiStopIndexer" [q.1]
      (v, cacheIns "multistop" v (logRun "MultiStopIndexer" q.2))

/-- `_get_duration`: with a `data` argument, run the DurationIndexer on the
supplied data (plus the cached part streams) and do not store the result;
otherwise compute once from the piece's own objects and cache under
'duration'. -/
def getDuration (data : Option Obj) (st : IPState) : Obj × IPState :=
  match data with
  | some d =>
      let q := getPartStreams st
      (Obj.node "DurationIndexer" [d, q.1], logRun "DurationIndexer" q.2)
  | none =>
      match st.analyses.lookup "duration" with
      | some v => (v, st)
      | none =>
          let q := getM21NrcObjsNoTied st
          let r := getPartStreams q.2
          let v := Obj.node "DurationIndexer" [q.1, r.1]
          (v, cacheIns "duration" v (logRun "DurationIndexer" r.2))

/-- The test `settings is None or settings ==
ActiveVoicesIndexer.default_settings` from `_get_active_voices`.
active_voices.py is not in the source tree; its default settings dict is
represented by the all-absent dict. -/
def avDefaultOk : Option PyObj → Bool
  | none => true
  | some (PyObj.dict s) => s == {}
  | some (PyObj.val _) => false

/-- `_get_active_voices`: with `data`, run on the supplied data and do not
cache.  Otherwise, when 'active_voices' is not yet cached and the settings
are default, compute, store and return; in every other case fall through and
run the ActiveVoicesIndexer again on the cached noterest results (the stored
cache entry is never read back). -/
def getActiveVoices (data : Option Obj) (settings : Option PyObj)
    (st : IPState) : Obj × IPState :=
  match data with
  | some d =>
      (Obj.node "ActiveVoicesIndexer" [d, pyEncOpt settings],
        logRun "ActiveVoicesIndexer" st)
  | none =>
      if (st.analyses.lookup "active_voices").isNone && avDefaultOk settings then
        let q := getNoterest st
        let v := Obj.node "ActiveVoicesIndexer" [q.1, Obj.pynone]
        (v, cacheIns "active_voices" v (logRun "ActiveVoicesIndexer" q.2))
      else
        let q := getNoterest st
        (Obj.node "ActiveVoicesIndexer" [q.1, pyEncOpt settings],
          logRun "ActiveVoicesIndexer" q.2)

/-- `_get_beat_strength`: run the NoteBeatStrengthIndexer once and cache
under 'beat_strength'. -/
def getBeatStrength (st : IPState) : Obj × IPState :=
  match st.analyses.lookup "beat_strength" with
  | some v => (v, st)
  | none =>
      let q := getM21NrcObjsNoTied st
      let v := Obj.node "NoteBeatStrengthIndexer" [q.1]
      (v, cacheIns "beat_strength" v (logRun "NoteBeatStrengthIndexer" q.2))

/-- `_get_fermata`: run the FermataIndexer once and cache under 'fermata'. -/
def getFermata (st : IPState) : Obj × IPState :=
  match st.analyses.lookup "fermata" with
  | some v => (v, st)
  | none =>
      let q := getM21NrcObjsNoTied st
      let v := Obj.node "FermataIndexer" [q.1]
      (v, cacheIns "fermata" v (logRun "FermataIndexer" q.2))

/-- `_get_m21_measure_objs`: measure objects per part, cached under
'm21_measure_objs'. -/
def getM21MeasureObjs (st : IPState) : Obj × IPState :=
  match st.analyses.lookup "m21_measure_objs" with
  | some v => (v, st)
  | none =>
      let q := getM21Objs st
      let v := Obj.node "m21_measure_objs" [q.1]
      (v, cacheIns "m21_measure_objs" v q.2)

/-- `_get_measure`: run the MeasureIndexer once and cache under 'measure'. -/
def getMeasure (st : IPState) : Obj × IPState :=
  match st.analyses.lookup "measure" with
  | some v => (v, st)
  | none =>
      let q := getM21MeasureObjs st
      let v := Obj.node "MeasureIndexer" [q.1]
      (v, cacheIns "measure" v (logRun "MeasureIndexer" q.2))

/-- `_get_vertical_interval`: compute the intervals once with the maximally
detailed default settings and cache under 'vertical_interval'; when the
caller's settings are present and not maximally detailed, answer with an
IntervalReindexer pass over the one cached table. -/
def getVerticalInterval (settings : Option PyObj) (st : IPState) :
    Obj × IPState :=
  let p :=
    match st.analyses.lookup "vertical_interval" with
    | some v => (v, st)
    | none =>
        let q := getNoterest st
        let v := Obj.node "IntervalIndexer" [q.1, Obj.sett defaultIntervalSetts]
        (v, cacheIns "vertical_interval" v (logRun "IntervalIndexer" q.2))
  match settings with
  | some q =>
      if maxDetailPy q then p
      else (Obj.node "IntervalReindexer" [p.1, pyEnc q],
            logRun "IntervalReindexer" p.2)
  | none => p

/-- `_get_horizontal_interval`: like the vertical case, but inside the
reindex branch the result is additionally shifted to attach-before when
'horiz_attach_later' is absent or falsy. -/
def getHorizontalInterval (settings : Option PyObj) (st : IPState) :
    Obj × IPState :=
  let p :=
    match st.analyses.lookup "horizontal_interval" with
    | some v => (v, st)
    | none =>
        let q := getNoterest st
        let v := Obj.node "HorizontalIntervalIndexer"
          [q.1, Obj.sett defaultIntervalSetts]
        (v, cacheIns "horizontal_interval" v (logRun "HorizontalIntervalIndexer" q.2))
  match settings with
  | some q =>
      if maxDetailPy q then p
      else
        let post := Obj.node "IntervalReindexer" [p.1, pyEnc q]
        let st2 := logRun "IntervalReindexer" p.2
        if halAbsentOrFalsy q then (Obj.node "attach_before" [post], st2)
        else (post, st2)
  | none => p

/-- `_get_dissonance`: run the DissonanceIndexer on beat strength, duration,
horizontal intervals (with `h_setts`) and vertical intervals (with
`v_setts`), cached under 'dissonance'. -/
def getDissonance (st : IPState) : Obj × IPState :=
  match st.analyses.lookup "dissonance" with
  | some v => (v, st)
  | none =>
      let a := getBeatStrength st
      let b := getDuration none a.2
      let c := getHorizontalInterval (some (PyObj.dict dissHSetts)) b.2
      let d := getVerticalInterval (some (PyObj.dict dissVSetts)) c.2
      let v := Obj.node "DissonanceIndexer" [a.1, b.1, c.1, d.1]
      (v, cacheIns "dissonance" v (logRun "DissonanceIndexer" d.2))

/-- `_get_ngram`: run the NGramIndexer on the supplied data; never cached. -/
def getNgram (d : Obj) (settings : Option PyObj) (st : IPState) :
    Obj × IPState :=
  (Obj.node "NGramIndexer" [d, pyEncOpt settings], logRun "NGramIndexer" st)

/-- The canonical handlers of the `self._mkd` multi-key dispatch table in
`IndexedPiece.__init__`, one tag per entry. -/
inductive ATag where
  | annotationT
  | activeVoicesT
  | cadenceT
  | contourT
  | dissonanceT
  | fermataT
  | horizIntervalT
  | vertIntervalT
  | durationT
  | measureT
  | beatStrengthT
  | ngramT
  | multistopT
  | noterestT
  | offsetT
  | overBassT
  | repeatT
  | windexerT
  | aggregatorT
  | barChartT
  | frequencyT
  | annotateNoteT
  | lilypondT
  | partNotesT
deriving DecidableEq, Repr

/-- Resolve a short- or long-format string key of `self._mkd` to its
handler; `none` for strings that are not keys of the table. -/
def resolveA : String → Option ATag
  | "annotation" => some ATag.annotationT
  | "lilypond.AnnotationIndexer" => some ATag.annotationT
  | "active_voices" => some ATag.activeVoicesT
  | "active_voices.ActiveVoicesIndexer" => some ATag.activeVoicesT
  | "cadence" => some ATag.cadenceT
  | "cadence.CadenceIndexer" => some ATag.cadenceT
  | "contour" => some ATag.contourT
  | "contour.ContourIndexer" => some ATag.contourT
  | "dissonance" => some ATag.dissonanceT
  | "dissonance.DissonanceIndexer" => some ATag.dissonanceT
  | "fermata" => some ATag.fermataT
  | "fermata.FermataIndexer" => some ATag.fermataT
  | "horizontal_interval" => some ATag.horizIntervalT
  | "interval.HorizontalIntervalIndexer" => some ATag.horizIntervalT
  | "vertical_interval" => some ATag.vertIntervalT
  | "interval.IntervalIndexer" => some ATag.vertIntervalT
  | "duration" => some ATag.durationT
  | "meter.DurationIndexer" => some ATag.durationT
  | "measure" => some ATag.measureT
  | "meter.MeasureIndexer" => some ATag.measureT
  | "beat_strength" => some ATag.beatStrengthT
  | "meter.NoteBeatStrengthIndexer" => some ATag.beatStrengthT
  | "ngram" => some ATag.ngramT
  | "ngram.NGramIndexer" => some ATag.ngramT
  | "multistop" => some ATag.multistopT
  | "noterest.MultiStopIndexer" => some ATag.multistopT
  | "noterest" => some ATag.noterestT
  | "noterest.NoteRestIndexer" => some ATag.noterestT
  | "offset" => some ATag.offsetT
  | "offset.FilterByOffsetIndexer" => some ATag.offsetT
  | "over_bass" => some ATag.overBassT
  | "over_bass.OverBassIndexer" => some ATag.overBassT
  | "repeat" => some ATag.repeatT
  | "repeat.FilterByRepeatIndexer" => some ATag.repeatT
  | "windexer" => some ATag.windexerT
  | "windexer.Windexer" => some ATag.windexerT
  | "aggregator" => some ATag.aggregatorT
  | "aggregator.ColumnAggregator" => some ATag.aggregatorT
  | "bar_chart" => some ATag.barChartT
  | "barchart.RBarChart" => some ATag.barChartT
  | "frequency" => some ATag.frequencyT
  | "frequency.FrequencyExperimenter" => some ATag.frequencyT
  | "annotate_the_note" => some ATag.annotateNoteT
  | "lilypond.AnnotateTheNoteExperimenter" => some ATag.annotateNoteT
  | "lilypond" => some ATag.lilypondT
  | "lilypond.LilyPondExperimenter" => some ATag.lilypondT
  | "part_notes" => some ATag.partNotesT
  | "lilypond.PartNotesExperimenter" => some ATag.partNotesT
  | _ => none

/-- The string keys of `self._mkd` (the result of `self._mkd.keys(str)`):
every short- and long-format name. -/
def strKeys : List String :=
  ["annotation", "lilypond.AnnotationIndexer",
   "active_voices", "active_voices.ActiveVoicesIndexer",
   "cadence", "cadence.CadenceIndexer",
   "contour", "contour.ContourIndexer",
   "dissonance", "dissonance.DissonanceIndexer",
   "fermata", "fermata.FermataIndexer",
   "horizontal_interval", "interval.HorizontalIntervalIndexer",
   "vertical_interval", "interval.IntervalIndexer",
   "duration", "meter.DurationIndexer",
   "measure", "meter.MeasureIndexer",
   "beat_strength", "meter.NoteBeatStrengthIndexer",
   "ngram", "ngram.NGramIndexer",
   "multistop", "noterest.MultiStopIndexer",
   "noterest", "noterest.NoteRestIndexer",
   "offset", "offset.FilterByOffsetIndexer",
   "over_bass", "over_bass.OverBassIndexer",
   "repeat", "repeat.FilterByRepeatIndexer",
   "windexer", "windexer.Windexer",
   "aggregator", "aggregator.ColumnAggregator",
   "bar_chart", "barchart.RBarChart",
   "frequency", "frequency.FrequencyExperimenter",
   "annotate_the_note", "lilypond.AnnotateTheNoteExperimenter",
   "lilypond", "lilypond.LilyPondExperimenter",
   "part_notes", "lilypond.PartNotesExperimenter"]

/-- ASCII-lexicographic comparison, matching Python's ordering on these
all-ASCII key strings. -/
def strLeChars : List Char → List Char → Bool
  | [], _ => true
  | _ :: _, [] => false
  | a :: as, b :: bs =>
      if a.toNat < b.toNat then true
      else if b.toNat < a.toNat then false
      else strLeChars as bs

/-- String comparison used by the model of Python `sorted`. -/
def strLe (a b : String) : Bool := strLeChars a.toList b.toList

/-- Ordered insertion for the model of Python `sorted`. -/
def insSorted (a : String) : List String → List String
  | [] => [a]
  | b :: bs => if strLe a b then a :: b :: bs else b :: insSorted a bs

/-- Insertion sort modelling Python `sorted` on strings. -/
def sortStrs (l : List String) : List String := l.foldr insSorted []

/-- `sorted(self._mkd.keys(str))`, the list embedded in the
not-an-analyzer error message. -/
def sortedStrKeys : List String := sortStrs strKeys

/-- The `analyzer_cls` argument of `get_data`: a single string key, or a
Python list (the old chain-style argument, e.g. from workflow.py). -/
inductive AnalyzerReq where
  | str (s : String)
  | list (l : List String)

/-- How the requested analyzer is rendered into the not-an-analyzer error
message (`_NOT_AN_ANALYZER.format(analyzer_cls, ...)`). -/
def reqName : AnalyzerReq → String
  | AnalyzerReq.str s => s
  | AnalyzerReq.list l => "[" ++ String.intercalate ", " l ++ "]"

/-- The errors `get_data` can raise: the KeyError built from
`_NOT_AN_ANALYZER` (carrying the offending identifier and the sorted valid
string keys), and the RuntimeWarning built from
`_SUPERFLUOUS_OR_INSUFFICIENT_ARGUMENTS` (carrying the handler that was
formatted into the message). -/
inductive GDErr where
  | keyErrNotAnalyzer (offender : String) (validKeys : List String)
  | runtimeWarningArgs (handler : String)
deriving DecidableEq, Repr

/-- The bound method or class formatted into the superfluous-or-insufficient
arguments message for each handler. -/
def descOf : ATag → String
  | ATag.annotationT => "AnnotationIndexer"
  | ATag.activeVoicesT => "IndexedPiece._get_active_voices"
  | ATag.cadenceT => "CadenceIndexer"
  | ATag.contourT => "ContourIndexer"
  | ATag.dissonanceT => "IndexedPiece._get_dissonance"
  | ATag.fermataT => "IndexedPiece._get_fermata"
  | ATag.horizIntervalT => "IndexedPiece._get_horizontal_interval"
  | ATag.vertIntervalT => "IndexedPiece._get_vertical_interval"
  | ATag.durationT => "IndexedPiece._get_duration"
  | ATag.measureT => "IndexedPiece._get_measure"
  | ATag.beatStrengthT => "IndexedPiece._get_beat_strength"
  | ATag.ngramT => "IndexedPiece._get_ngram"
  | ATag.multistopT => "IndexedPiece._get_multistop"
  | ATag.noterestT => "IndexedPiece._get_noterest"
  | ATag.offsetT => "FilterByOffsetIndexer"
  | ATag.overBassT => "OverBassIndexer"
  | ATag.repeatT => "FilterByRepeatIndexer"
  | ATag.windexerT => "Windexer"
  | ATag.aggregatorT => "ColumnAggregator"
  | ATag.barChartT => "RBarChart"
  | ATag.frequencyT => "FrequencyExperimenter"
  | ATag.annotateNoteT => "AnnotateTheNoteExperimenter"
  | ATag.lilypondT => "LilyPondExperimenter"
  | ATag.partNotesT => "PartNotesExperimenter"

/-- The class name recorded for the table entries that map directly to an
Indexer/Experimenter class (no caching method on IndexedPiece). -/
def clsName : ATag → String
  | ATag.annotationT => "AnnotationIndexer"
  | ATag.cadenceT => "CadenceIndexer"
  | ATag.contourT => "ContourIndexer"
  | ATag.offsetT => "FilterByOffsetIndexer"
  | ATag.overBassT => "OverBassIndexer"
  | ATag.repeatT => "FilterByRepeatIndexer"
  | ATag.windexerT => "Windexer"
  | ATag.aggregatorT => "ColumnAggregator"
  | ATag.barChartT => "RBarChart"
  | ATag.frequencyT => "FrequencyExperimenter"
  | ATag.annotateNoteT => "AnnotateTheNoteExperimenter"
  | ATag.lilypondT => "LilyPondExperimenter"
  | ATag.partNotesT => "PartNotesExperimenter"
  | _ => ""

/-- Python argument binding for a handler that accepts no arguments at all
(`_get_noterest` and friends): any supplied data or settings argument
raises a TypeError, which `get_data` converts to the descriptive
RuntimeWarning. -/
def noArgCall (t : ATag) (f : IPState → Obj × IPState) (data : Option Obj)
    (settings : Option PyObj) (st : IPState) : Except GDErr (Obj × IPState) :=
  if data.isSome || settings.isSome then
    Except.error (GDErr.runtimeWarningArgs (descOf t))
  else Except.ok (f st)

/-- Dispatch of `get_data` once the handler is resolved, modelling Python's
binding of the positional `data` argument and the keyword `settings`
argument against each handler's signature.  The classes absent from the
source tree are modelled from the spec: an Indexer/Experimenter class takes
its aligned input as first argument and an optional settings record
(section 4.3 of the spec), so calling one without data raises a TypeError. -/
def dispatchTag (t : ATag) (data : Option Obj) (settings : Option PyObj)
    (st : IPState) : Except GDErr (Obj × IPState) :=
  match t with
  | ATag.noterestT => noArgCall t getNoterest data settings st
  | ATag.multistopT => noArgCall t getMultistop data settings st
  | ATag.beatStrengthT => noArgCall t getBeatStrength data settings st
  | ATag.fermataT => noArgCall t getFermata data settings st
  | ATag.measureT => noArgCall t getMeasure data settings st
  | ATag.dissonanceT => noArgCall t getDissonance data settings st
  | ATag.durationT =>
      if settings.isSome then
        Except.error (GDErr.runtimeWarningArgs (descOf t))
      else Except.ok (getDuration data st)
  | ATag.activeVoicesT => Except.ok (getActiveVoices data settings st)
  | ATag.vertIntervalT =>
      match data, settings with
      | some _, some _ => Except.error (GDErr.runtimeWarningArgs (descOf t))
      | some d, none => Except.ok (getVerticalInterval (some (PyObj.val d)) st)
      | none, s => Except.ok (getVerticalInterval s st)
  | ATag.horizIntervalT =>
      match data, settings with
      | some _, some _ => Except.error (GDErr.runtimeWarningArgs (descOf t))
      | some d, none => Except.ok (getHorizontalInterval (some (PyObj.val d)) st)
      | none, s => Except.ok (getHorizontalInterval s st)
  | ATag.ngramT =>
      match data with
      | none => Except.error (GDErr.runtimeWarningArgs (descOf t))
      | some d => Except.ok (getNgram d settings st)
  | t =>
      match data with
      | none => Except.error (GDErr.runtimeWarningArgs (descOf t))
      | some d =>
          Except.ok (Obj.node (clsName t) [d, pyEncOpt settings],
            logRun (clsName t) st)

/-- `IndexedPiece.get_data(analyzer_cls, data=None, settings=None)`.  A
request that is not a key of the dispatch table (in particular any Python
list) raises the KeyError built from `_NOT_AN_ANALYZER`; otherwise the
handler is called with the given arguments. -/
def getData (a : AnalyzerReq) (data : Option Obj) (settings : Option PyObj)
    (st : IPState) : Except GDErr (Obj × IPState) :=
  match a with
  | AnalyzerReq.list l =>
      Except.error (GDErr.keyErrNotAnalyzer (reqName (AnalyzerReq.list l)) sortedStrKeys)
  | AnalyzerReq.str s =>
      match resolveA s with
      | none => Except.error (GDErr.keyErrNotAnalyzer s sortedStrKeys)
      | some t => dispatchTag t data settings st

/-- The signature mismatches that raise a TypeError at the call into the
resolved handler (and hence the descriptive RuntimeWarning from
`get_data`), as a function of whether data and settings were supplied. -/
def wrongArgs (t : ATag) (hasData hasSetts : Bool) : Bool :=
  match t with
  | ATag.noterestT => hasData || hasSetts
  | ATag.multistopT => hasData || hasSetts
  | ATag.beatStrengthT => hasData || hasSetts
  | ATag.fermataT => hasData || hasSetts
  | ATag.measureT => hasData || hasSetts
  | ATag.dissonanceT => hasData || hasSetts
  | ATag.durationT => hasSetts
  | ATag.activeVoicesT => false
  | ATag.vertIntervalT => hasData && hasSetts
  | ATag.horizIntervalT => hasData && hasSetts
  | _ => !hasData

/-- Result of an evaluated `get_data` call, with a default for the error
case. -/
def resOf (dflt : Obj) : Except GDErr (Obj × IPState) → Obj
  | Except.ok p => p.1
  | Except.error _ => dflt

/-- Piece state after an evaluated `get_data` call, with a default for the
error case. -/
def stateOf (dflt : IPState) : Except GDErr (Obj × IPState) → IPState
  | Except.ok p => p.2
  | Except.error _ => dflt

/-- Whether an evaluated `get_data` call returned normally. -/
def isOkE : Except GDErr (Obj × IPState) → Bool
  | Except.ok _ => true
  | Except.error _ => false

/-- A Python value stored in a WorkflowManager per-piece settings dict. -/
inductive PyV where
  | pvNone
  | pvBool (b : Bool)
  | pvInt (i : Int)
  | pvStr (s : String)
deriving DecidableEq, Repr

/-- The errors raised by workflow.py: ValueError, IndexError,
AttributeError, RuntimeError, NotImplementedError, and exceptions
propagating out of `IndexedPiece.get_data`. -/
inductive WErr where
  | valueError (m : String)
  | indexError (m : String)
  | attrError (m : String)
  | runtimeError (m : String)
  | notImplementedError (m : String)
  | fromGetData (e : GDErr)
deriving DecidableEq, Repr

/-- The WorkflowManager state: `self._data` (the IndexedPieces),
`self._settings` (one dict per piece) and `self._result`. -/
structure WM where
  pieces : List IPState
  setts : List (List (String × PyV))
  result : Option Obj

/-- The per-piece settings dict built in `WorkflowManager.__init__`:
'offset interval' and 'voice combinations' start as None, 'filter repeats',
'interval quality' and 'simple intervals' as False. -/
def initialPieceSettings : List (String × PyV) :=
  [("offset interval", PyV.pvNone), ("voice combinations", PyV.pvNone),
   ("filter repeats", PyV.pvBool false), ("interval quality", PyV.pvBool false),
   ("simple intervals", PyV.pvBool false)]

/-- `WorkflowManager(vals)` over already-constructed pieces. -/
def wmInit (ps : List IPState) : WM :=
  { pieces := ps, setts := ps.map fun _ => initialPieceSettings, result := none }

/-- `self._settings[index][field] = value` for a field already present. -/
def setS (d : List (String × PyV)) (f : String) (v : PyV) :
    List (String × PyV) :=
  d.map fun p => if p.1 = f then (f, v) else p

/-- `WorkflowManager.settings` with an integer index: bounds check, field
check, then get (value None) or set. -/
def wmSettings1 (wm : WM) (i : Int) (field : String) (value : PyV) :
    Except WErr (PyV × WM) :=
  if 0 ≤ i ∧ i < (wm.setts.length : Int) then
    let d := wm.setts.getD i.toNat []
    match d.lookup field with
    | none => Except.error (WErr.attrError ("Invalid setting: " ++ field))
    | some cur =>
        match value with
        | PyV.pvNone => Except.ok (cur, wm)
        | v =>
            Except.ok (PyV.pvNone,
              { wm with setts := wm.setts.set i.toNat (setS d field v) })
  else
    Except.error (WErr.indexError
      ("Invalid inex for this WorkflowManager (" ++ toString i ++ ")"))

/-- The loop `for i in xrange(len(self._settings)):
self.settings(i, field, value)` from the index-None branch. -/
def wmSetAll (wm : WM) (field : String) (value : PyV) :
    List Nat → Except WErr WM
  | [] => Except.ok wm
  | i :: is =>
      match wmSettings1 wm (Int.ofNat i) field value with
      | Except.error e => Except.error e
      | Except.ok (_, wm1) => wmSetAll wm1 field value is

/-- `WorkflowManager.settings(index, field, value)`: with index None the
value must not be None (ValueError) and the setting is applied to every
piece; otherwise the single-index path runs. -/
def wmSettings (wm : WM) (index : Option Int) (field : String)
    (value : PyV) : Except WErr (PyV × WM) :=
  match index with
  | none =>
      if value = PyV.pvNone then
        Except.error (WErr.valueError "If index is None, value must not be None.")
      else
        match wmSetAll wm field value (List.range wm.setts.length) with
        | Except.error e => Except.error e
        | Except.ok wm1 => Except.ok (PyV.pvNone, wm1)
  | some i => wmSettings1 wm i field value

/-- The loop body of `load('pieces')`:
`piece.get_data([noterest.NoteRestIndexer])` for every piece, propagating
any exception. -/
def loadLoop : List IPState → Except WErr (List IPState)
  | [] => Except.ok []
  | p :: ps =>
      match getData (AnalyzerReq.list ["noterest.NoteRestIndexer"]) none none p with
      | Except.error e => Except.error (WErr.fromGetData e)
      | Except.ok (_, p1) =>
          match loadLoop ps with
          | Except.error e => Except.error e
          | Except.ok rest => Except.ok (p1 :: rest)

/-- `WorkflowManager.load(instruction)`: only 'pieces' is implemented;
'hdf5', 'stata' and 'pickle' raise NotImplementedError; any other
instruction falls through and does nothing. -/
def wmLoad (instr : String) (wm : WM) : Except WErr WM :=
  if instr = "pieces" then
    match loadLoop wm.pieces with
    | Except.error e => Except.error e
    | Except.ok ps => Except.ok { wm with pieces := ps }
  else if instr = "hdf5" || instr = "stata" || instr = "pickle" then
    Except.error (WErr.notImplementedError
      ("The " ++ instr ++ " instruction does't work yet!"))
  else Except.ok wm

/-- The per-piece loop of `_intervs`: request
`[noterest.NoteRestIndexer, interval.IntervalIndexer]` (the run settings
land in get_data's `data` slot, as in the source), then the
frequency/aggregation chain on the result. -/
def intervsLoop (s : Option PyObj) : List IPState → Except WErr (List Obj)
  | [] => Except.ok []
  | p :: ps =>
      match getData (AnalyzerReq.list
          ["noterest.NoteRestIndexer", "interval.IntervalIndexer"])
          (s.map pyEnc) none p with
      | Except.error e => Except.error (WErr.fromGetData e)
      | Except.ok (vi, p1) =>
          match getData (AnalyzerReq.list
              ["frequency.FrequencyExperimenter", "aggregator.ColumnAggregator"])
              (some (Obj.sett {})) (some (PyObj.val (Obj.node "values_list" [vi]))) p1 with
          | Except.error e => Except.error (WErr.fromGetData e)
          | Except.ok (fr, _) =>
              match intervsLoop s ps with
              | Except.error e => Except.error e
              | Except.ok rest => Except.ok (fr :: rest)

/-- `_intervs`: per-piece frequencies, then the cross-piece ColumnAggregator
(aggregated_pieces.py is not in the source tree; modelled from the spec as
an aggregation node over the per-piece results) and the final descending
sort `post.sort(ascending=False)`. -/
def wmIntervs (s : Option PyObj) (wm : WM) : Except WErr Obj :=
  match intervsLoop s wm.pieces with
  | Except.error e => Except.error e
  | Except.ok freqs =>
      Except.ok (Obj.node "sort_desc" [Obj.node "ColumnAggregator" freqs])

/-- The per-piece loop shared by `_two_part_modules` and
`_all_part_modules`, whose first statement is the same chain-style
`get_data` request as `_intervs`. -/
def modulesLoop (s : Option PyObj) : List IPState → Except WErr (List Obj)
  | [] => Except.ok []
  | p :: ps =>
      match getData (AnalyzerReq.list
          ["noterest.NoteRestIndexer", "interval.IntervalIndexer"])
          (s.map pyEnc) none p with
      | Except.error e => Except.error (WErr.fromGetData e)
      | Except.ok _ =>
          match modulesLoop s ps with
          | Except.error e => Except.error e
          | Except.ok rest => Except.ok rest

/-- `_two_part_modules`: the n-gram frequencies per voice pair, then the
cross-piece aggregation and descending sort. -/
def wmTwoPart (s : Option PyObj) (wm : WM) : Except WErr Obj :=
  match modulesLoop s wm.pieces with
  | Except.error e => Except.error e
  | Except.ok freqs =>
      Except.ok (Obj.node "sort_desc" [Obj.node "ColumnAggregator" freqs])

/-- `_all_part_modules`: the all-voice n-gram frequencies, then the
cross-piece aggregation and descending sort. -/
def wmAllPart (s : Option PyObj) (wm : WM) : Except WErr Obj :=
  match modulesLoop s wm.pieces with
  | Except.error e => Except.error e
  | Except.ok freqs =>
      Except.ok (Obj.node "sort_desc" [Obj.node "ColumnAggregator" freqs])

/-- The first recognized instruction of `WorkflowManager.run`. -/
def instr0 : List Char := "all-combinations intervals".toList

/-- The second recognized instruction of `WorkflowManager.run`. -/
def instr1 : List Char := "all 2-part interval n-grams".toList

/-- The third recognized instruction of `WorkflowManager.run`. -/
def instr2 : List Char := "all-voice interval n-grams".toList

/-- `possible_instructions` from `WorkflowManager.run`. -/
def possibleInstrs : List (List Char) := [instr0, instr1, instr2]

/-- Python `min` over a non-empty list of lengths. -/
def listMin : List Nat → Nat
  | [] => 0
  | x :: xs => xs.foldl min x

/-- `min([len(x) for x in possible_instructions])`. -/
def minInstrLen : Nat := listMin (possibleInstrs.map List.length)

/-- The error message of `WorkflowManager.run` for unparsable
instructions. -/
def runParseMsg : String := "WorkflowManager.run() could not parse the instruction"

/-- The ' for SuperCollider' modifier tail. -/
def scTail : List Char := " for SuperCollider".toList

/-- Substring search, modelling `instruction.rfind(' for SuperCollider')
!= -1`. -/
def hasSub (pat : List Char) : List Char → Bool
  | [] => pat.isEmpty
  | c :: cs => pat.isPrefixOf (c :: cs) || hasSub pat cs

/-- The tail of `run`: apply the SuperCollider formatter when requested
(`_for_sc` is a stub returning None), store `self._result`, return. -/
def finishRun (instr : List Char) (wm : WM) :
    Except WErr Obj → Except WErr (Obj × WM)
  | Except.error e => Except.error e
  | Except.ok post =>
      let post2 := if hasSub scTail instr then Obj.pynone else post
      Except.ok (post2, { wm with result := some post2 })

/-- `WorkflowManager.run(instruction, settings)`: reject instructions
shorter than the shortest recognized instruction, dispatch on
`startswith` for each recognized instruction in order, and reject anything
else, all with the same RuntimeError. -/
def wmRun (instr : List Char) (settings : Option PyObj) (wm : WM) :
    Except WErr (Obj × WM) :=
  if instr.length < minInstrLen then
    Except.error (WErr.runtimeError runParseMsg)
  else if instr0.isPrefixOf instr then finishRun instr wm (wmIntervs settings wm)
  else if instr1.isPrefixOf instr then finishRun instr wm (wmTwoPart settings wm)
  else if instr2.isPrefixOf instr then finishRun instr wm (wmAllPart settings wm)
  else Except.error (WErr.runtimeError runParseMsg)

/-- Workflow result extractor with a default for the error case. -/
def wmResOf (dflt : Obj) : Except WErr (Obj × WM) → Obj
  | Except.ok p => p.1
  | Except.error _ => dflt

/-- A music21 Note, Rest or Chord event, with pitches as pitch-space
numbers (sorting pitches descending is sorting these numbers
descending). -/
inductive NEvent where
  | note (p : Int)
  | chord (ps : List Int)
  | rest
deriving DecidableEq, Repr

/-- A cell of the intermediate voice-combination frame: NaN or an event
value (`_reinsert_rests` turns NaN cells into rests and leaves everything
else alone). -/
inductive CellE where
  | nan
  | ev (e : NEvent)
deriving DecidableEq, Repr

/-- `_get_pitches`: a note becomes its one-element pitch tuple, a chord its
pitches, a rest NaN (`none`). -/
def getPitchesM : NEvent → Option (List Int)
  | NEvent.note p => some [p]
  | NEvent.chord ps => some ps
  | NEvent.rest => none

/-- `_reinsert_rests`: NaN cells become rests, anything else is returned
unchanged. -/
def reinsertRests : CellE → NEvent
  | CellE.nan => NEvent.rest
  | CellE.ev e => e

/-- Insert into a descending-sorted list of pitches. -/
def insDesc (x : Int) : List Int → List Int
  | [] => [x]
  | y :: ys => if y ≤ x then x :: y :: ys else y :: insDesc x ys

/-- `sorted(..., reverse=True)` on pitches. -/
def sortDesc (l : List Int) : List Int := l.foldr insDesc []

/-- Insert into an ascending-sorted list of offsets. -/
def insAsc (x : Nat) : List Nat → List Nat
  | [] => [x]
  | y :: ys => if x ≤ y then x :: y :: ys else y :: insAsc x ys

/-- Ascending sort of offsets (the sorted union index of the pandas outer
join). -/
def sortAsc (l : List Nat) : List Nat := l.foldr insAsc []

/-- Split the flattened event list back into per-voice chunks by the
sub-sequence lengths (the `indecies` slicing of `_combine_voices`). -/
def chunksOf (ser : List (Nat × NEvent)) : List Nat → List (List (Nat × NEvent))
  | [] => []
  | n :: ns => ser.take n :: chunksOf (ser.drop n) ns

/-- `_combine_voices(ser, part)`: `ser` is the part's flattened
offset-tagged Note/Rest/Chord events and `voiceLens` the lengths of the
embedded Voice streams found in the part (empty when the part has no
embedded voices, in which case `ser` is returned unchanged).  Per offset of
the outer-join index, all voices' pitches are collapsed into one chord
sorted by descending pitch; the `_reinsert_rests` pass then maps NaN cells
to rests — but every cell is already a chord object at that point. -/
def combineVoices (ser : List (Nat × NEvent)) (voiceLens : List Nat) :
    List (Nat × NEvent) :=
  if voiceLens.isEmpty then ser
  else
    let chunks := chunksOf ser voiceLens
    let offs := sortAsc ((chunks.map (fun c => c.map Prod.fst)).flatten).dedup
    offs.map fun o =>
      let cells : List (Option (List Int)) :=
        chunks.map fun c => (c.lookup o).bind getPitchesM
      let pitches := (cells.filterMap id).flatten
      (o, reinsertRests (CellE.ev (NEvent.chord (sortDesc pitches))))

/-- Modelled from the spec: interval.py is not in the source tree.  A pitch
as the interval indexers need it: a diatonic step number and a chromatic
semitone number (both counted from a fixed reference). -/
structure MPitch where
  dia : Int
  chroma : Int
deriving DecidableEq, Repr

/-- Modelled from the spec: the content of one vertical-interval cell in
the maximally detailed (directed, compound, with quality) form — the
diatonic and chromatic distance from the lower-indexed pair voice's note up
to the other.  Display settings only relabel this value. -/
structure IVec where
  dia : Int
  chroma : Int
deriving DecidableEq, Repr

/-- Modelled from the spec: the closed settings enumeration of the interval
indexer, `{quality: bool, directed: bool, simple_or_compound:
enum{simple,compound}}` (section 4.3); `simple = true` means
simple, false means compound. -/
structure CSet where
  quality : Bool
  directed : Bool
  simple : Bool
deriving DecidableEq, Repr

/-- The maximally detailed settings: directed, compound, with quality. -/
def maxCS : CSet := { quality := true, directed := true, simple := false }

/-- The fully reduced settings: unqualified, undirected, simple. -/
def simpleCS : CSet := { quality := false, directed := false, simple := true }

/-- Negate an interval vector (swap the two notes). -/
def negVec (v : IVec) : IVec := { dia := -v.dia, chroma := -v.chroma }

/-- Modelled from the spec: drop the direction of an interval. -/
def undirect (v : IVec) : IVec :=
  if v.dia < 0 ∨ (v.dia = 0 ∧ v.chroma < 0) then negVec v else v

/-- Modelled from the spec: reduce a compound interval to its single-octave
equivalent, preserving direction. -/
def simplifyVec (v : IVec) : IVec :=
  if 0 ≤ v.dia then { dia := v.dia % 7, chroma := v.chroma - 12 * (v.dia / 7) }
  else { dia := -((-v.dia) % 7), chroma := v.chroma + 12 * ((-v.dia) / 7) }

/-- Modelled from the spec: the pure re-labeling/reduction function of the
IntervalReindexer applied to one cell — reduce the maximally detailed
interval value to the requested directedness and compounding (the quality
flag affects only rendering). -/
def reduceVec (c : CSet) (v : IVec) : IVec :=
  let v1 := if c.directed then v else undirect v
  if c.simple then simplifyVec v1 else v1

/-- Semitone span of the canonical (perfect/major) interval of a given
diatonic step count. -/
def canonSemis (d : Nat) : Int :=
  12 * (d / 7) + (([0, 2, 4, 5, 7, 9, 11].getD (d % 7) 0 : Int))

/-- Modelled from the spec: the quality mark of an interval.  Following the
spec's example tokens (a perfect octave displays as '8' when qualified),
perfect quality carries no letter; other qualities are marked M, m, A, d. -/
def qualMark (v : IVec) : String :=
  let u := undirect v
  let d := u.dia.toNat
  let off := u.chroma - canonSemis d
  if d % 7 = 0 ∨ d % 7 = 3 ∨ d % 7 = 4 then
    if off = 0 then "" else if off = 1 then "A" else if off = -1 then "d" else "q"
  else
    if off = 0 then "M"
    else if off = -1 then "m"
    else if off = 1 then "A"
    else if off = -2 then "d" else "q"

/-- Modelled from the spec: render an interval cell under the given display
settings (a leading '-' for directed descending intervals, the quality mark
when quality is requested, then the interval size). -/
def tokenStr (c : CSet) (v : IVec) : String :=
  (if c.directed ∧ v.dia < 0 then "-" else "") ++
    (if c.quality then qualMark v else "") ++ toString (v.dia.natAbs + 1)

/-- Interval vector from the lower pair voice's pitch up to the upper
one's. -/
def ivec (lower upper : MPitch) : IVec :=
  { dia := upper.dia - lower.dia, chroma := upper.chroma - lower.chroma }

/-- One voice of a noterest table: an offset-indexed pitch series. -/
def MVoice : Type := List (Nat × MPitch)

/-- The cell of a voice-pair column at one offset: the interval when both
voices sound, otherwise the missing marker. -/
def pairCell (c : CSet) (ua lb : Option MPitch) : Option IVec :=
  match ua, lb with
  | some a, some b => some (reduceVec c (ivec b a))
  | _, _ => none

/-- Modelled from the spec: one voice-pair column of the vertical interval
indexer — the outer-join offset index of the two voices, with the reduced
interval at offsets where both voices sound. -/
def pairColumn (c : CSet) (upper lower : MVoice) : List (Nat × Option IVec) :=
  let offs := sortAsc ((upper.map Prod.fst ++ lower.map Prod.fst).dedup)
  offs.map fun o => (o, pairCell c (upper.lookup o) (lower.lookup o))

/-- The ordered voice pairs (i, j) with i < j of an n-voice table. -/
def pairIdx (n : Nat) : List (Nat × Nat) :=
  (List.range n).flatMap fun i =>
    (List.range n).filterMap fun j => if i < j then some (i, j) else none

/-- Modelled from the spec: `IntervalIndexer.run` — for every ordered voice
pair i < j, the pair column computed directly from the raw notes under the
requested settings. -/
def ivRun (c : CSet) (nt : List MVoice) :
    List ((Nat × Nat) × List (Nat × Option IVec)) :=
  (pairIdx nt.length).map fun ij =>
    (ij, pairColumn c (nt.getD ij.1 []) (nt.getD ij.2 []))

/-- Modelled from the spec: `IntervalReindexer.run` — the pure per-cell
reduction applied to every cell of a cached maximally detailed table,
touching nothing but the labels. -/
def reindexRun (c : CSet) (t : List ((Nat × Nat) × List (Nat × Option IVec))) :
    List ((Nat × Nat) × List (Nat × Option IVec)) :=
  t.map fun pr => (pr.1, pr.2.map fun oc => (oc.1, oc.2.map (reduceVec c)))

/-- A fixed test piece: two voices a perfect octave apart at offset 0.0
(voice 0 an octave above voice 1). -/
def octavePiece : List MVoice :=
  [[(0, { dia := 7, chroma := 12 })], [(0, { dia := 0, chroma := 0 })]]

/-- A caller-supplied DataFrame passed through get_data's `data`
argument. -/
def dUser : Obj := Obj.node "user_frame" []

/-- First `get_data('active_voices')` request on a fresh piece. -/
def avCall1 : Except GDErr (Obj × IPState) :=
  getData (AnalyzerReq.str "active_voices") none none pieceZero

/-- Piece state after the first active_voices request. -/
def avState1 : IPState := stateOf pieceZero avCall1

/-- Second, identical `get_data('active_voices')` request. -/
def avCall2 : Except GDErr (Obj × IPState) :=
  getData (AnalyzerReq.str "active_voices") none none avState1

/-- Piece state after the second active_voices request. -/
def avState2 : IPState := stateOf pieceZero avCall2

/-- `get_data('duration', data=...)` on a fresh piece. -/
def durDataCall : Except GDErr (Obj × IPState) :=
  getData (AnalyzerReq.str "duration") (some dUser) none pieceZero

/-- A maximally detailed settings dict that also asks for attach-before
(`horiz_attach_later` present and False). -/
def maxDetailAttachFalse : SettingsDict :=
  { directed := some true, quality := some (QVal.qb true),
    simpleOrCompound := some SC.compound, horizAttachLater := some false }

/-- A WorkflowManager over one freshly imported piece. -/
def wmOnePiece : WM := wmInit [pieceZero]

/-- A WorkflowManager over one piece whose initial noterest indexing pass
has already completed (its noterest results are cached). -/
def wmLoadedPiece : WM := wmInit [(getNoterest pieceZero).2]

/-- A WorkflowManager over two freshly imported pieces. -/
def wmTwoPieces : WM := wmInit [pieceZero, pieceZero]

/-- C1: the claim states that every cached analysis requested with no data
override and default settings returns the cache-stored object on the second
call with no recomputation.  The code violates this for 'active_voices':
this theorem evaluates two identical `get_data('active_voices')` requests
on a fresh piece and shows that the first call stores its result in the
analyses cache, the two calls return equal results, yet the second call
runs the ActiveVoicesIndexer a second time (the run log grows from one run
to two) instead of returning the stored object. -/
theorem activeVoices_cached_but_recomputed :
    resOf Obj.pynone avCall2 = resOf Obj.pynone avCall1 ∧
    avState1.analyses.lookup "active_voices" = some (resOf Obj.pynone avCall1) ∧
    avState1.runLog.count "ActiveVoicesIndexer" = 1 ∧
    avState2.runLog.count "ActiveVoicesIndexer" = 2 :=
  ⟨rfl, rfl, rfl, rfl⟩

/-- C6: the claim states that when every voice of a merge group is silent
at an offset the combiner emits a rest, not an empty chord.  The code
violates this: with two embedded voices each holding a rest at offset 0,
`_combine_voices` returns an empty chord, because the `_reinsert_rests`
pass runs after every cell has already been collapsed into a chord object
and so never finds a NaN to replace.  The other two behaviors of the claim
hold and are evaluated here too: simultaneous pitches collapse into one
chord sorted by descending pitch, and a rest sounding against a note is
simply dropped. -/
theorem combineVoices_all_rests_empty_chord :
    combineVoices [(0, NEvent.rest), (0, NEvent.rest)] [1, 1]
      = [(0, NEvent.chord [])] ∧
    combineVoices [(0, NEvent.note 5), (0, NEvent.chord [9, 2])] [1, 1]
      = [(0, NEvent.chord [9, 5, 2])] ∧
    combineVoices [(0, NEvent.note 5), (0, NEvent.rest)] [1, 1]
      = [(0, NEvent.chord [5])] :=
  ⟨rfl, rfl, rfl⟩

/-- C7: the claim states that `run('all-combinations intervals')` raises a
usage error before `load('pieces')` has completed and returns a
frequency-sorted series afterwards.  The code cannot exhibit this
behavior: `load('pieces')` itself raises the not-an-analyzer KeyError
(workflow.py passes the analyzer chain as a Python list, which
`IndexedPiece.get_data` rejects), so it can never complete, and
`run('all-combinations intervals')` raises the same KeyError regardless of
whether the piece's noterest pass has somehow been completed. -/
theorem workflow_load_and_run_raise_not_analyzer :
    wmLoad "pieces" wmOnePiece
      = Except.error (WErr.fromGetData
          (GDErr.keyErrNotAnalyzer "[noterest.NoteRestIndexer]" sortedStrKeys)) ∧
    wmRun ("all-combinations intervals".toList) none wmOnePiece
      = Except.error (WErr.fromGetData
          (GDErr.keyErrNotAnalyzer
            "[noterest.NoteRestIndexer, interval.IntervalIndexer]" sortedStrKeys)) ∧
    wmRun ("all-combinations intervals".toList) none wmLoadedPiece
      = Except.error (WErr.fromGetData
          (GDErr.keyErrNotAnalyzer
            "[noterest.NoteRestIndexer, interval.IntervalIndexer]" sortedStrKeys)) :=
  ⟨rfl, rfl, rfl⟩

/-- C9: the claim states that every horizontal-interval request whose
settings dict lacks `horiz_attach_later` or sets it False returns the
attach-before table (each voice's index shifted back one position with 0.0
prepended).  The code violates this when the remaining settings match the
maximally detailed cached form: with settings
`{directed: True, quality: True, 'simple or compound': 'compound',
horiz_attach_later: False}` the request returns the cached attach-later
table unchanged — the attach-before shift lives inside the reindex branch,
which such settings skip.  The second conjunct shows the contrasting
behavior the claim describes: with non-maximal settings and
horiz_attach_later False the result is the reindexed table wrapped in the
attach-before shift. -/
theorem horizontal_interval_attach_before_skipped :
    resOf Obj.pynone (getData (AnalyzerReq.str "horizontal_interval") none
        (some (PyObj.dict maxDetailAttachFalse)) pieceZero)
      = Obj.node "HorizontalIntervalIndexer"
          [(getNoterest pieceZero).1, Obj.sett defaultIntervalSetts] ∧
    resOf Obj.pynone (getData (AnalyzerReq.str "horizontal_interval") none
        (some (PyObj.dict dissHSetts)) pieceZero)
      = Obj.node "attach_before"
          [Obj.node "IntervalReindexer"
            [Obj.node "HorizontalIntervalIndexer"
              [(getNoterest pieceZero).1, Obj.sett defaultIntervalSetts],
             Obj.sett dissHSetts]] :=
  ⟨rfl, rfl⟩

/-- C4 counterexample: `get_data` applied to an ordered list of two valid
analyzer identifiers does not run the chain: it raises the not-an-analyzer
KeyError, because a Python list is never a key of the dispatch table. -/
theorem getData_chain_rejected :
    getData (AnalyzerReq.list ["noterest", "vertical_interval"]) none none pieceZero
      = Except.error
          (GDErr.keyErrNotAnalyzer "[noterest, vertical_interval]" sortedStrKeys) :=
  rfl

/-- Reducing with the maximally detailed settings changes nothing: the
cached table already is the directed, compound, qualified form. -/
theorem reduceVec_maxCS (v : IVec) : reduceVec maxCS v = v := by
  simp [reduceVec, maxCS]

/-- The per-cell coherence of the reindexer: reducing a maximally detailed
cell to the requested settings equals computing that cell directly. -/
theorem pairCell_reduce (c : CSet) (a b : Option MPitch) :
    (pairCell maxCS a b).map (reduceVec c) = pairCell c a b := by
  cases a <;> cases b <;> simp [pairCell, reduceVec_maxCS]

/-- Table-level coherence: the IntervalReindexer pass over the maximally
detailed table equals running the interval indexer directly with the
requested settings. -/
theorem reindexRun_of_max (c : CSet) (nt : List MVoice) :
    reindexRun c (ivRun maxCS nt) = ivRun c nt := by
  unfold reindexRun ivRun
  rw [List.map_map]
  refine List.map_congr_left fun ij _ => ?_
  simp only [Function.comp]
  congr 1
  unfold pairColumn
  rw [List.map_map]
  refine List.map_congr_left fun o _ => ?_
  simp [Function.comp, pairCell_reduce]

/-- C2: vertical intervals are computed from the raw notes once, with the
maximally detailed settings, and cached; once the cache holds the table, no
request runs the IntervalIndexer again, a request with maximally detailed
(or absent) settings returns the cached table itself, and a request with
any other settings returns exactly the IntervalReindexer applied to the
cached table.  The reduction is faithful: reindexing the maximally detailed
table equals computing the requested form directly from the raw notes, and
on the fixed octave test piece the detailed cell displays as '8'
(directed/qualified) and the reduced cell as '1'
(simple/undirected/unqualified). -/
theorem vertical_interval_compute_once_reduce_many :
    (∀ st : IPState, st.analyses.lookup "vertical_interval" = none →
      ∀ s : Option PyObj,
        (getVerticalInterval s st).2.analyses.lookup "vertical_interval"
          = some (Obj.node "IntervalIndexer"
              [(getNoterest st).1, Obj.sett defaultIntervalSetts])) ∧
    (∀ (st : IPState) (v : Obj),
      st.analyses.lookup "vertical_interval" = some v →
      (∀ s : Option PyObj,
        (getVerticalInterval s st).2.runLog.count "IntervalIndexer"
          = st.runLog.count "IntervalIndexer") ∧
      getVerticalInterval none st = (v, st) ∧
      (∀ p : PyObj, maxDetailPy p = true →
        getVerticalInterval (some p) st = (v, st)) ∧
      (∀ p : PyObj, maxDetailPy p = false →
        getVerticalInterval (some p) st
          = (Obj.node "IntervalReindexer" [v, pyEnc p],
             logRun "IntervalReindexer" st))) ∧
    (∀ (c : CSet) (nt : List MVoice),
      reindexRun c (ivRun maxCS nt) = ivRun c nt) ∧
    (ivRun maxCS octavePiece
        = [((0, 1), [(0, some { dia := 7, chroma := 12 })])] ∧
      tokenStr maxCS { dia := 7, chroma := 12 } = "8" ∧
      ivRun simpleCS octavePiece
        = [((0, 1), [(0, some { dia := 0, chroma := 0 })])] ∧
      tokenStr simpleCS { dia := 0, chroma := 0 } = "1") := by
  refine ⟨?_, ?_, reindexRun_of_max, rfl, rfl, rfl, rfl⟩
  · intro st h s
    unfold getVerticalInterval
    rw [h]
    cases s with
    | none => simp [cacheIns, logRun, List.lookup]
    | some p =>
        by_cases hm : maxDetailPy p
        · simp [hm, cacheIns, logRun, List.lookup]
        · simp [hm, cacheIns, logRun, List.lookup]
  · intro st v h
    refine ⟨?_, ?_, ?_, ?_⟩
    · intro s
      unfold getVerticalInterval
      rw [h]
      cases s with
      | none => rfl
      | some p =>
          by_cases hm : maxDetailPy p
          · simp [hm]
          · simp [hm, logRun, List.count_cons]
    · unfold getVerticalInterval
      rw [h]
    · intro p hm
      unfold getVerticalInterval
      rw [h]
      simp [hm]
    · intro p hm
      unfold getVerticalInterval
      rw [h]
      simp [hm]

/-- C2 witness: the claim's properties evaluated on a fresh piece — the
first request caches the maximally detailed table, and a later reduced
request (the dissonance indexer's vertical settings) runs no
IntervalIndexer. -/
theorem vertical_interval_compute_once_witness :
    (pieceZero.analyses.lookup "vertical_interval" = none ∧
      (getVerticalInterval none pieceZero).2.analyses.lookup "vertical_interval"
        = some (Obj.node "IntervalIndexer"
            [(getNoterest pieceZero).1, Obj.sett defaultIntervalSetts])) ∧
    (getVerticalInterval (some (PyObj.dict dissVSetts))
        (getVerticalInterval none pieceZero).2).2.runLog.count "IntervalIndexer"
      = (getVerticalInterval none pieceZero).2.runLog.count "IntervalIndexer" ∧
    reindexRun simpleCS (ivRun maxCS octavePiece) = ivRun simpleCS octavePiece :=
  ⟨⟨rfl, vertical_interval_compute_once_reduce_many.1 pieceZero rfl none⟩,
    (vertical_interval_compute_once_reduce_many.2.1
        (getVerticalInterval none pieceZero).2
        (getVerticalInterval none pieceZero).1 rfl).1
      (some (PyObj.dict dissVSetts)),
    vertical_interval_compute_once_reduce_many.2.2.1 simpleCS octavePiece⟩

/-- C3 counterexample: on a fresh piece, `get_data('duration', data=d)`
does not leave the analyses cache unchanged — it memoizes the part streams
as a side effect (the cache goes from empty to holding 'part_streams'),
even though the call succeeds and the duration result itself is not
stored. -/
theorem duration_data_call_changes_cache :
    isOkE durDataCall = true ∧
    (stateOf pieceZero durDataCall).analyses ≠ pieceZero.analyses :=
  ⟨rfl, List.cons_ne_nil _ _⟩

/-- C3 (amended): a `get_data` request with an explicit `data` argument
computes its result from that data and never stores the result under any
analysis key: for 'duration' the result is the DurationIndexer run on the
supplied data, every cache entry other than the auxiliary 'part_streams'
memoization is untouched, and for 'active_voices' the cache is exactly
unchanged; a subsequent plain 'duration' request still computes the
canonical value of the piece itself. -/
theorem duration_data_result_not_stored :
    (∀ (st : IPState) (d : Obj),
      getData (AnalyzerReq.str "duration") (some d) none st
        = Except.ok (Obj.node "DurationIndexer" [d, (getPartStreams st).1],
            logRun "DurationIndexer" (getPartStreams st).2)) ∧
    (∀ (st : IPState) (d : Obj) (k : String), k ≠ "part_streams" →
      (stateOf st (getData (AnalyzerReq.str "duration") (some d) none st)).analyses.lookup k
        = st.analyses.lookup k) ∧
    (∀ (st : IPState) (d : Obj) (s : Option PyObj),
      (stateOf st (getData (AnalyzerReq.str "active_voices") (some d) s st)).analyses
        = st.analyses) ∧
    (resOf Obj.pynone (getData (AnalyzerReq.str "duration") none none
        (stateOf pieceZero durDataCall))
      = resOf Obj.pynone (getData (AnalyzerReq.str "duration") none none pieceZero)) := by
  refine ⟨fun st d => rfl, ?_, fun st d s => rfl, rfl⟩
  intro st d k hk
  show ((getPartStreams st).2.analyses.lookup k) = st.analyses.lookup k
  have hbeq : (k == "part_streams") = false := beq_eq_false_iff_ne.mpr hk
  cases h2 : st.analyses.lookup "part_streams" with
  | some v => simp [getPartStreams, h2]
  | none => simp [getPartStreams, h2, cacheIns, List.lookup, hbeq]

/-- C3 witness: after a data-override duration request on a fresh piece,
the 'duration' slot of the cache is still what it was (empty). -/
theorem duration_data_result_not_stored_witness :
    ("duration" : String) ≠ "part_streams" ∧
    (stateOf pieceZero durDataCall).analyses.lookup "duration"
      = pieceZero.analyses.lookup "duration" :=
  ⟨by decide,
    duration_data_result_not_stored.2.1 pieceZero dUser "duration" (by decide)⟩

/-- C4 (amended): `get_data` accepts a single analyzer identifier and runs
that analyzer's handler; every ordered list of identifiers, of any length
and contents, is rejected with the not-an-analyzer KeyError naming the list
and the valid string keys. -/
theorem getData_single_analyzer_only :
    (∀ (l : List String) (d : Option Obj) (s : Option PyObj) (st : IPState),
      getData (AnalyzerReq.list l) d s st
        = Except.error
            (GDErr.keyErrNotAnalyzer (reqName (AnalyzerReq.list l)) sortedStrKeys)) ∧
    (∀ st : IPState,
      getData (AnalyzerReq.str "noterest") none none st
        = Except.ok (getNoterest st)) ∧
    (∀ st : IPState,
      getData (AnalyzerReq.str "vertical_interval") none none st
        = Except.ok (getVerticalInterval none st)) ∧
    (∀ (st : IPState) (d : Obj),
      getData (AnalyzerReq.str "ngram") (some d) none st
        = Except.ok (getNgram d none st)) :=
  ⟨fun _ _ _ _ => rfl, fun _ => rfl, fun _ => rfl, fun _ _ => rfl⟩

/-- C5 counterexample: a wrong data/settings combination that does not
fail — `get_data('vertical_interval', data=d)` succeeds silently, with the
caller's data frame bound positionally to the handler's `settings`
parameter and handed to the IntervalReindexer as if it were a settings
dict. -/
theorem vertical_interval_data_silently_accepted :
    isOkE (getData (AnalyzerReq.str "vertical_interval") (some dUser) none pieceZero)
      = true ∧
    resOf Obj.pynone
        (getData (AnalyzerReq.str "vertical_interval") (some dUser) none pieceZero)
      = Obj.node "IntervalReindexer" [(getVerticalInterval none pieceZero).1, dUser] :=
  ⟨rfl, rfl⟩

/-- C5 (amended): `get_data` distinguishes its two usage errors.  Every
identifier outside the dispatch table fails with the not-an-analyzer
KeyError carrying the offending identifier and the sorted list of all valid
string identifiers (which contains every table key); every recognized
analyzer whose call binding fails raises the distinct
superfluous-or-insufficient-arguments RuntimeWarning naming the handler;
the two error constructors are disjoint.  Exception forced by the
counterexample: supplying `data` alone to the vertical or horizontal
interval analyzer is silently bound to the settings parameter and returns a
result instead of failing. -/
theorem getData_error_taxonomy :
    (∀ (s : String) (d : Option Obj) (q : Option PyObj) (st : IPState),
      resolveA s = none →
      getData (AnalyzerReq.str s) d q st
        = Except.error (GDErr.keyErrNotAnalyzer s sortedStrKeys)) ∧
    (∀ k ∈ strKeys, k ∈ sortedStrKeys) ∧
    (∀ (s : String) (t : ATag) (d : Option Obj) (q : Option PyObj) (st : IPState),
      resolveA s = some t →
      wrongArgs t d.isSome q.isSome = true →
      getData (AnalyzerReq.str s) d q st
        = Except.error (GDErr.runtimeWarningArgs (descOf t))) ∧
    (∀ (o m : String) (ks : List String),
      GDErr.keyErrNotAnalyzer o ks ≠ GDErr.runtimeWarningArgs m) ∧
    (∀ (st : IPState) (d : Obj),
      getData (AnalyzerReq.str "vertical_interval") (some d) none st
        = Except.ok (getVerticalInterval (some (PyObj.val d)) st) ∧
      getData (AnalyzerReq.str "horizontal_interval") (some d) none st
        = Except.ok (getHorizontalInterval (some (PyObj.val d)) st)) := by
  refine ⟨?_, by decide, ?_, ?_, fun st d => ⟨rfl, rfl⟩⟩
  · intro s d q st h
    simp [getData, h]
  · intro s t d q st hr hw
    simp only [getData, hr]
    cases t <;> cases d <;> cases q <;>
      simp_all [dispatchTag, noArgCall, wrongArgs, descOf]
  · intro o m ks h
    exact GDErr.noConfusion h

/-- C5 witness: the taxonomy at concrete inputs — an unknown identifier
gets the not-an-analyzer error, a recognized no-argument analyzer given
data gets the distinct arguments error, and a valid key appears in the
error's listing. -/
theorem getData_error_taxonomy_witness :
    (resolveA "bananas" = none ∧
      getData (AnalyzerReq.str "bananas") none none pieceZero
        = Except.error (GDErr.keyErrNotAnalyzer "bananas" sortedStrKeys)) ∧
    (wrongArgs ATag.noterestT true false = true ∧
      getData (AnalyzerReq.str "noterest") (some dUser) none pieceZero
        = Except.error
            (GDErr.runtimeWarningArgs "IndexedPiece._get_noterest")) ∧
    "noterest" ∈ sortedStrKeys :=
  ⟨⟨rfl, getData_error_taxonomy.1 "bananas" none none pieceZero rfl⟩,
    ⟨rfl, getData_error_taxonomy.2.2.1 "noterest" ATag.noterestT (some dUser)
      none pieceZero rfl rfl⟩,
    getData_error_taxonomy.2.1 "noterest" (by decide)⟩

/-- One unfolding step of `setS`. -/
theorem setS_cons (k : String) (w : PyV) (rest : List (String × PyV))
    (f : String) (v : PyV) :
    setS ((k, w) :: rest) f v
      = (if k = f then (f, v) else (k, w)) :: setS rest f v := rfl

/-- Setting a present field updates its looked-up value. -/
theorem lookup_setS_self (f : String) (v : PyV) :
    ∀ d : List (String × PyV), (d.lookup f).isSome →
      (setS d f v).lookup f = some v := by
  intro d
  induction d with
  | nil => intro h; simp [List.lookup] at h
  | cons p rest ih =>
      obtain ⟨k, w⟩ := p
      intro h
      by_cases hk : k = f
      · rw [setS_cons, if_pos hk]
        simp [List.lookup]
      · have hbeq : (f == k) = false := beq_eq_false_iff_ne.mpr (Ne.symm hk)
        rw [setS_cons, if_neg hk]
        simp only [List.lookup, hbeq] at h ⊢
        exact ih h

/-- Setting a field leaves every other field's looked-up value alone. -/
theorem lookup_setS_ne (f g : String) (v : PyV) (hne : g ≠ f) :
    ∀ d : List (String × PyV), (setS d f v).lookup g = d.lookup g := by
  intro d
  induction d with
  | nil => rfl
  | cons p rest ih =>
      obtain ⟨k, w⟩ := p
      by_cases hk : k = f
      · have hbeq : (g == f) = false := beq_eq_false_iff_ne.mpr hne
        have hbeq2 : (g == k) = false := by rw [hk]; exact hbeq
        rw [setS_cons, if_pos hk]
        simp only [List.lookup, hbeq, hbeq2]
        exact ih
      · rw [setS_cons, if_neg hk]
        simp only [List.lookup]
        cases hgk : (g == k) with
        | true => rfl
        | false => exact ih

/-- `List.getD` after `List.set` at the written index. -/
theorem getD_set_self {α : Type} (l : List α) (i : Nat) (a dflt : α)
    (h : i < l.length) : (l.set i a).getD i dflt = a := by
  simp [List.getD_eq_getElem?_getD, List.getElem?_set_self h]

/-- `List.getD` after `List.set` at a different index. -/
theorem getD_set_ne {α : Type} (l : List α) (i j : Nat) (a dflt : α)
    (h : i ≠ j) : (l.set i a).getD j dflt = l.getD j dflt := by
  simp [List.getD_eq_getElem?_getD, List.getElem?_set_ne h]

/-- `settings(i, field)` (getter): with a valid index and a present field,
the stored value is returned and the state is untouched. -/
theorem wmSettings1_read (wm : WM) (i : Int) (f : String) (x : PyV)
    (h0 : 0 ≤ i) (h1 : i < (wm.setts.length : Int))
    (hf : (wm.setts.getD i.toNat []).lookup f = some x) :
    wmSettings1 wm i f PyV.pvNone = Except.ok (x, wm) := by
  unfold wmSettings1
  rw [if_pos ⟨h0, h1⟩]
  simp only [hf]

/-- `settings(i, field, value)` (setter): with a valid index, a present
field and a non-None value, the field is updated in place. -/
theorem wmSettings1_write (wm : WM) (i : Int) (f : String) (v : PyV)
    (h0 : 0 ≤ i) (h1 : i < (wm.setts.length : Int)) (hv : v ≠ PyV.pvNone)
    (hf : ((wm.setts.getD i.toNat []).lookup f).isSome) :
    wmSettings1 wm i f v
      = Except.ok (PyV.pvNone, { wm with setts := wm.setts.set i.toNat (setS (wm.setts.getD i.toNat []) f v) }) := by
  unfold wmSettings1
  rw [if_pos ⟨h0, h1⟩]
  obtain ⟨x, hx⟩ := Option.isSome_iff_exists.mp hf
  cases v with
  | pvNone => exact absurd rfl hv
  | pvBool b => simp only [hx]
  | pvInt n => simp only [hx]
  | pvStr s => simp only [hx]

/-- `settings` with an out-of-range index raises IndexError. -/
theorem wmSettings1_oob (wm : WM) (i : Int) (f : String) (w : PyV)
    (h : ¬(0 ≤ i ∧ i < (wm.setts.length : Int))) :
    wmSettings1 wm i f w
      = Except.error (WErr.indexError
          ("Invalid inex for this WorkflowManager (" ++ toString i ++ ")")) := by
  unfold wmSettings1
  rw [if_neg h]

/-- `settings` with an unknown field raises AttributeError naming the
field. -/
theorem wmSettings1_badField (wm : WM) (i : Int) (g : String) (w : PyV)
    (h0 : 0 ≤ i) (h1 : i < (wm.setts.length : Int))
    (hf : (wm.setts.getD i.toNat []).lookup g = none) :
    wmSettings1 wm i g w
      = Except.error (WErr.attrError ("Invalid setting: " ++ g)) := by
  unfold wmSettings1
  rw [if_pos ⟨h0, h1⟩]
  simp only [hf]

/-- The all-pieces loop of `settings(None, field, value)`: every listed
index gets the new value, every other dict is untouched. -/
theorem wmSetAll_ok (f : String) (v : PyV) (hv : v ≠ PyV.pvNone) :
    ∀ (is : List Nat) (wm : WM),
      (∀ i ∈ is, i < wm.setts.length) →
      (∀ i ∈ is, ((wm.setts.getD i []).lookup f).isSome) →
      ∃ wm1, wmSetAll wm f v is = Except.ok wm1 ∧
        wm1.setts.length = wm.setts.length ∧
        (∀ j, j ∉ is → wm1.setts.getD j [] = wm.setts.getD j []) ∧
        (∀ j ∈ is, (wm1.setts.getD j []).lookup f = some v) := by
  intro is
  induction is with
  | nil =>
      intro wm _ _
      exact ⟨wm, rfl, rfl, fun j _ => rfl, fun j hj => absurd hj (List.not_mem_nil j)⟩
  | cons i rest ih =>
      intro wm hb hs
      have hi : i < wm.setts.length := hb i (List.mem_cons_self i rest)
      have hsi : ((wm.setts.getD i []).lookup f).isSome :=
        hs i (List.mem_cons_self i rest)
      have htn : (Int.ofNat i).toNat = i := rfl
      have hw := wmSettings1_write wm (Int.ofNat i) f v (Int.ofNat_nonneg i)
        (Int.ofNat_lt.mpr hi) hv (by rw [htn]; exact hsi)
      set wmx : WM := { wm with setts := wm.setts.set i (setS (wm.setts.getD i []) f v) } with hwmx
      have hwx : wmSettings1 wm (Int.ofNat i) f v = Except.ok (PyV.pvNone, wmx) := by
        rw [hw]
        rfl
      have hlenx : wmx.setts.length = wm.setts.length := by
        simp [hwmx]
      have hbx : ∀ j ∈ rest, j < wmx.setts.length := fun j hj =>
        hlenx ▸ hb j (List.mem_cons_of_mem i hj)
      have hgetx : ∀ j : Nat, j ≠ i → wmx.setts.getD j [] = wm.setts.getD j [] := by
        intro j hj
        exact getD_set_ne wm.setts i j _ [] (fun h => hj h.symm)
      have hgeti : wmx.setts.getD i [] = setS (wm.setts.getD i []) f v :=
        getD_set_self wm.setts i _ [] hi
      have hsx : ∀ j ∈ rest, ((wmx.setts.getD j []).lookup f).isSome := by
        intro j hj
        by_cases hji : j = i
        · rw [hji, hgeti, lookup_setS_self f v _ hsi]
          rfl
        · rw [hgetx j hji]
          exact hs j (List.mem_cons_of_mem i hj)
      obtain ⟨wm1, e1, e2, e3, e4⟩ := ih wmx hbx hsx
      refine ⟨wm1, ?_, e2.trans hlenx, ?_, ?_⟩
      · show wmSetAll wm f v (i :: rest) = Except.ok wm1
        unfold wmSetAll
        rw [hwx]
        exact e1
      · intro j hj
        have hji : j ≠ i := fun h => hj (h ▸ List.mem_cons_self i rest)
        have hjr : j ∉ rest := fun h => hj (List.mem_cons_of_mem i h)
        rw [e3 j hjr]
        exact hgetx j hji
      · intro j hj
        rcases List.mem_cons.mp hj with hji | hjr
        · by_cases hjr2 : j ∈ rest
          · exact e4 j hjr2
          · rw [e3 j hjr2, hji, hgeti]
            exact lookup_setS_self f v _ hsi
        · exact e4 j hjr

/-- C8: the settings scopes of the WorkflowManager.  Setting a valid field
with `index=None` and a non-None value stores it for every piece and a
subsequent per-piece read returns it; an out-of-range index (such as -1)
raises IndexError; `settings(None, field, None)` raises ValueError; an
unknown field raises an error naming the invalid setting. -/
theorem workflow_settings_scopes :
    (∀ (wm : WM) (f : String) (v : PyV), v ≠ PyV.pvNone →
      (∀ d ∈ wm.setts, (d.lookup f).isSome) →
      ∃ wm1, wmSettings wm none f v = Except.ok (PyV.pvNone, wm1) ∧
        (∀ i : Nat, i < wm.setts.length →
          (wm1.setts.getD i []).lookup f = some v) ∧
        (∀ i : Int, 0 ≤ i → i < (wm1.setts.length : Int) →
          wmSettings wm1 (some i) f PyV.pvNone = Except.ok (v, wm1))) ∧
    (∀ (wm : WM) (f : String) (w : PyV),
      wmSettings wm (some (-1)) f w
        = Except.error
            (WErr.indexError "Invalid inex for this WorkflowManager (-1)")) ∧
    (∀ (wm : WM) (f : String),
      wmSettings wm none f PyV.pvNone
        = Except.error
            (WErr.valueError "If index is None, value must not be None.")) ∧
    (∀ (wm : WM) (i : Int) (g : String) (w : PyV),
      0 ≤ i → i < (wm.setts.length : Int) →
      (wm.setts.getD i.toNat []).lookup g = none →
      wmSettings wm (some i) g w
        = Except.error (WErr.attrError ("Invalid setting: " ++ g))) := by
  refine ⟨?_, ?_, ?_, ?_⟩
  · intro wm f v hv hall
    have hb : ∀ i ∈ List.range wm.setts.length, i < wm.setts.length :=
      fun i hi => List.mem_range.mp hi
    have hsome : ∀ i ∈ List.range wm.setts.length,
        ((wm.setts.getD i []).lookup f).isSome := by
      intro i hi
      have hilt := List.mem_range.mp hi
      have hmem : wm.setts.getD i [] ∈ wm.setts := by
        rw [List.getD_eq_getElem?_getD, List.getElem?_eq_getElem hilt]
        exact List.getElem_mem hilt
      exact hall _ hmem
    obtain ⟨wm1, heq, hlen, _, hin⟩ :=
      wmSetAll_ok f v hv (List.range wm.setts.length) wm hb hsome
    refine ⟨wm1, ?_, ?_, ?_⟩
    · unfold wmSettings
      rw [if_neg hv, heq]
    · intro i hi
      exact hin i (List.mem_range.mpr hi)
    · intro i h0 h1
      show wmSettings1 wm1 i f PyV.pvNone = Except.ok (v, wm1)
      have hnat : i.toNat < wm.setts.length := by
        rw [← hlen]
        omega
      exact wmSettings1_read wm1 i f v h0 h1
        (hin i.toNat (List.mem_range.mpr hnat))
  · intro wm f w
    show wmSettings1 wm (-1) f w = _
    rw [wmSettings1_oob wm (-1) f w (by intro h; exact absurd h.1 (by decide))]
    rfl
  · intro wm f
    unfold wmSettings
    rw [if_pos rfl]
  · intro wm i g w h0 h1 hf
    exact wmSettings1_badField wm i g w h0 h1 hf

/-- C8 witness: the scopes on a two-piece WorkflowManager — a shared set of
'filter repeats' succeeds for every piece, index -1 raises IndexError,
the None/None combination raises ValueError, and the unknown field
'bananas' raises the naming error. -/
theorem workflow_settings_scopes_witness :
    (∃ wm1, wmSettings wmTwoPieces none "filter repeats" (PyV.pvBool true)
        = Except.ok (PyV.pvNone, wm1) ∧
      (∀ i : Nat, i < wmTwoPieces.setts.length →
        (wm1.setts.getD i []).lookup "filter repeats" = some (PyV.pvBool true)) ∧
      (∀ i : Int, 0 ≤ i → i < (wm1.setts.length : Int) →
        wmSettings wm1 (some i) "filter repeats" PyV.pvNone
          = Except.ok (PyV.pvBool true, wm1))) ∧
    wmSettings wmTwoPieces (some (-1)) "filter repeats" PyV.pvNone
      = Except.error
          (WErr.indexError "Invalid inex for this WorkflowManager (-1)") ∧
    wmSettings wmTwoPieces none "filter repeats" PyV.pvNone
      = Except.error
          (WErr.valueError "If index is None, value must not be None.") ∧
    wmSettings wmTwoPieces (some 0) "bananas" PyV.pvNone
      = Except.error (WErr.attrError "Invalid setting: bananas") :=
  ⟨workflow_settings_scopes.1 wmTwoPieces "filter repeats" (PyV.pvBool true)
      (by decide) (by decide),
    workflow_settings_scopes.2.1 wmTwoPieces "filter repeats" PyV.pvNone,
    workflow_settings_scopes.2.2.1 wmTwoPieces "filter repeats",
    workflow_settings_scopes.2.2.2 wmTwoPieces 0 "bananas" PyV.pvNone
      (by decide) (by decide) (by decide)⟩

/-- A prefix is no longer than the list it starts. -/
theorem pfxLen : ∀ {p l : List Char}, p.isPrefixOf l = true →
    p.length ≤ l.length := by
  intro p
  induction p with
  | nil => intro l _; exact Nat.zero_le _
  | cons a as ih =>
      intro l h
      cases l with
      | nil => simp [List.isPrefixOf] at h
      | cons b bs =>
          simp only [List.isPrefixOf, Bool.and_eq_true] at h
          simpa [List.length_cons] using Nat.succ_le_succ (ih h.2)

/-- Two lists starting the same list are comparable: one starts the
other. -/
theorem pfxComparable : ∀ {l p q : List Char}, p.isPrefixOf l = true →
    q.isPrefixOf l = true → p.isPrefixOf q = true ∨ q.isPrefixOf p = true := by
  intro l
  induction l with
  | nil =>
      intro p q hp hq
      cases p with
      | nil => exact Or.inl (by simp [List.isPrefixOf])
      | cons a as => simp [List.isPrefixOf] at hp
  | cons c cs ih =>
      intro p q hp hq
      cases p with
      | nil => exact Or.inl (by simp [List.isPrefixOf])
      | cons a as =>
          cases q with
          | nil => exact Or.inr (by simp [List.isPrefixOf])
          | cons b bs =>
              simp only [List.isPrefixOf, Bool.and_eq_true] at hp hq ⊢
              have hab : (a == b) = true := by
                have h1 := eq_of_beq hp.1
                have h2 := eq_of_beq hq.1
                exact beq_iff_eq.mpr (h1.trans h2.symm)
              rcases ih hp.2 hq.2 with h | h
              · exact Or.inl ⟨hab, h⟩
              · have hba : (b == a) = true := by
                  exact beq_iff_eq.mpr (eq_of_beq hab).symm
                exact Or.inr ⟨hba, h⟩

/-- C10: `WorkflowManager.run` dispatches on instruction text: every
instruction shorter than the shortest recognized instruction name (26
characters) raises the RuntimeError; every instruction starting with one of
the three recognized names, whatever its trailing text, runs the
corresponding workflow (`_intervs`, `_two_part_modules`,
`_all_part_modules`) rather than being rejected; every other instruction
raises the same RuntimeError. -/
theorem run_dispatch_on_instruction :
    (minInstrLen = 26 ∧ instr0.length = 26 ∧ instr1.length = 27 ∧
      instr2.length = 26) ∧
    (∀ (instr : List Char) (s : Option PyObj) (wm : WM),
      instr.length < minInstrLen →
      wmRun instr s wm = Except.error (WErr.runtimeError runParseMsg)) ∧
    (∀ (instr : List Char) (s : Option PyObj) (wm : WM),
      instr0.isPrefixOf instr = true →
      wmRun instr s wm = finishRun instr wm (wmIntervs s wm)) ∧
    (∀ (instr : List Char) (s : Option PyObj) (wm : WM),
      instr1.isPrefixOf instr = true →
      wmRun instr s wm = finishRun instr wm (wmTwoPart s wm)) ∧
    (∀ (instr : List Char) (s : Option PyObj) (wm : WM),
      instr2.isPrefixOf instr = true →
      wmRun instr s wm = finishRun instr wm (wmAllPart s wm)) ∧
    (∀ (instr : List Char) (s : Option PyObj) (wm : WM),
      minInstrLen ≤ instr.length →
      instr0.isPrefixOf instr = false →
      instr1.isPrefixOf instr = false →
      instr2.isPrefixOf instr = false →
      wmRun instr s wm = Except.error (WErr.runtimeError runParseMsg)) := by
  refine ⟨⟨rfl, rfl, rfl, rfl⟩, ?_, ?_, ?_, ?_, ?_⟩
  · intro instr s wm h
    unfold wmRun
    rw [if_pos h]
  · intro instr s wm h
    have hlen : minInstrLen ≤ instr.length := le_trans (by decide) (pfxLen h)
    unfold wmRun
    rw [if_neg (Nat.not_lt.mpr hlen), if_pos h]
  · intro instr s wm h
    have hlen : minInstrLen ≤ instr.length := le_trans (by decide) (pfxLen h)
    have h0 : instr0.isPrefixOf instr = false := by
      cases h0 : instr0.isPrefixOf instr with
      | false => rfl
      | true => rcases pfxComparable h0 h with hc | hc <;> revert hc <;> decide
    unfold wmRun
    rw [if_neg (Nat.not_lt.mpr hlen), h0, if_neg (by simp), if_pos h]
  · intro instr s wm h
    have hlen : minInstrLen ≤ instr.length := le_trans (by decide) (pfxLen h)
    have h0 : instr0.isPrefixOf instr = false := by
      cases h0 : instr0.isPrefixOf instr with
      | false => rfl
      | true => rcases pfxComparable h0 h with hc | hc <;> revert hc <;> decide
    have h1 : instr1.isPrefixOf instr = false := by
      cases h1 : instr1.isPrefixOf instr with
      | false => rfl
      | true => rcases pfxComparable h1 h with hc | hc <;> revert hc <;> decide
    unfold wmRun
    rw [if_neg (Nat.not_lt.mpr hlen), h0, if_neg (by simp), h1,
      if_neg (by simp), if_pos h]
  · intro instr s wm hlen h0 h1 h2
    unfold wmRun
    rw [if_neg (Nat.not_lt.mpr hlen), h0, if_neg (by simp), h1,
      if_neg (by simp), h2, if_neg (by simp)]

/-- C10 witness: the dispatch at concrete instructions — a short string
and an unrecognized long string both raise, while the recognized name with
trailing text runs the all-combinations workflow. -/
theorem run_dispatch_on_instruction_witness :
    (("too short".toList).length < minInstrLen ∧
      wmRun ("too short".toList) none wmOnePiece
        = Except.error (WErr.runtimeError runParseMsg)) ∧
    (instr0.isPrefixOf ("all-combinations intervals please".toList) = true ∧
      wmRun ("all-combinations intervals please".toList) none wmOnePiece
        = finishRun ("all-combinations intervals please".toList) wmOnePiece
            (wmIntervs none wmOnePiece)) ∧
    wmRun ("this just is not an instruction you know".toList) none wmOnePiece
      = Except.error (WErr.runtimeError runParseMsg) :=
  ⟨⟨by decide, run_dispatch_on_instruction.2.1 _ none wmOnePiece (by decide)⟩,
    ⟨by decide, run_dispatch_on_instruction.2.2.1 _ none wmOnePiece (by decide)⟩,
    run_dispatch_on_instruction.2.2.2.2.2 _ none wmOnePiece (by decide)
      (by decide) (by decide) (by decide)⟩

end Viz
